import Mathlib

/-!
Shallow embedding of `src/web/src/components/auth.tsx` (the phone-number
authentication dialog of the CutomeGpts web playground) and proofs of the
behavioural claims about it.

The React component is event-driven: we embed each handler (`onSubmit`,
`onLogout`, the two `useEffect` hooks, form validation) as a pure function
from its inputs to an explicit record of the effects it performs
(dispatches to shared state, callback invocations, local `useState` setter
calls, `fetch` calls), and model the shared playground state and the
dialog's local state as explicit structures.
-/

namespace Auth

/-- An action dispatched to the shared playground state container.
The component only ever dispatches `{ type: "SET_API_KEY", payload }`
with `payload : string | null`, modelled as `Option String`. -/
inductive Action where
  | SET_API_KEY (payload : Option String)
  deriving DecidableEq, Repr

/-- The shared playground state, as seen by this component: the optional
OpenAI API key, plus the other playground fields (opaque here; the auth
component never touches them). -/
structure PgState where
  openaiAPIKey : Option String
  otherFields : List (String × String)
  deriving DecidableEq, Repr

/-- Modelled from the spec: the shared state container's reducer for the
`SET_API_KEY` action is not part of this repository (the dispatch function
comes from the external `usePlaygroundState` hook); the spec says the
dispatch interface accepts `{ type: "SET_API_KEY", payload: string | null }`
and setting the payload stores it as the API key, with `null` clearing
authentication. -/
def applyAction (s : PgState) (a : Action) : PgState :=
  match a with
  | Action.SET_API_KEY p => { s with openaiAPIKey := p }

/-- Apply a list of dispatched actions to the shared state, in order. -/
def applyDispatches (s : PgState) (acts : List Action) : PgState :=
  acts.foldl applyAction s

/-- JavaScript truthiness of the `string | null` API key: `null` and the
empty string are falsy, every other string is truthy. -/
def truthy : Option String → Bool
  | none => false
  | some s => if s = "" then false else true

/-- Modelled from the spec: `ellipsisMiddle` is imported from `@/lib/utils`,
which is not among the repository sources; the spec says the masked preview
shows exactly the first 4 and last 4 characters of the key with an ellipsis
between. The component calls it as `ellipsisMiddle(key, 4, 4)`. -/
def ellipsisMiddle (s : String) (front back : Nat) : String :=
  s.take front ++ "…" ++ s.takeRight back

/-- The status indicator (`Auth`, lines 50-62) renders its masked-key block
iff `pgState.openaiAPIKey` is truthy (`{pgState.openaiAPIKey && ...}`). -/
def rendersIndicator (s : PgState) : Bool :=
  truthy s.openaiAPIKey

/-- The text shown inside the status indicator when it renders:
`ellipsisMiddle(pgState.openaiAPIKey, 4, 4)`; `none` when the indicator
renders nothing. -/
def indicatorText (s : PgState) : Option String :=
  match s.openaiAPIKey with
  | none => none
  | some k => if k = "" then none else some (ellipsisMiddle k 4 4)

/-- Effects performed by the `onLogout` click handler (lines 40-46). -/
structure LogoutEffects where
  dispatches : List Action
  setShowAuthDialogCalls : List Bool
  deriving DecidableEq, Repr

/-- Handler `onLogout` (lines 40-46): dispatches `SET_API_KEY` with payload `null`
and calls `setShowAuthDialog(true)`; nothing else. -/
def onLogout : LogoutEffects :=
  { dispatches := [Action.SET_API_KEY none]
    setShowAuthDialogCalls := [true] }

/-- The URL the dialog fetches (line 110):
`http://localhost:5129/api/AppUser/GetAccessToken/${values.phoneNumber}`. -/
def requestUrl (phoneNumber : String) : String :=
  "http://localhost:5129/api/AppUser/GetAccessToken/" ++ phoneNumber

/-- Outcome of the `fetch` call as observed by `onSubmit`: either a response
with a status code and a body (read as text by `response.text()`), or the
promise rejects (network/transport error), landing in the `catch` block. -/
inductive FetchOutcome where
  | response (status : Nat) (body : String)
  | throws
  deriving DecidableEq, Repr

/-- Everything `onSubmit` (lines 107-133) does, as an explicit record:
the fetch calls it issues, the actions it dispatches, its calls to
`onOpenChange`, how many times it calls `onAuthComplete`, its calls to
`setError404`, and the manual field errors it sets via `form.setError`. -/
structure SubmitEffects where
  fetchCalls : List String
  dispatches : List Action
  openChangeCalls : List Bool
  authCompleteCalls : Nat
  setError404Calls : List Bool
  fieldErrors : List (String × String)
  deriving DecidableEq, Repr

/-- The effects record of a run that performs nothing. -/
def noEffects : SubmitEffects :=
  { fetchCalls := []
    dispatches := []
    openChangeCalls := []
    authCompleteCalls := 0
    setError404Calls := []
    fieldErrors := [] }

/-- Handler `onSubmit` (lines 107-133), given the validated phone number and the
outcome of the fetch: on 404 it calls `setError404(true)` and returns; on
any other status it reads the body as text, dispatches it as the API key,
calls `onOpenChange(false)` and `onAuthComplete()`; if the fetch throws it
sets the manual field error on `phoneNumber`. -/
def onSubmit (phoneNumber : String) (outcome : FetchOutcome) : SubmitEffects :=
  match outcome with
  | FetchOutcome.throws =>
      { noEffects with
        fetchCalls := [requestUrl phoneNumber]
        fieldErrors := [("phoneNumber", "Failed to fetch API key. Please try again.")] }
  | FetchOutcome.response status body =>
      if status = 404 then
        { noEffects with
          fetchCalls := [requestUrl phoneNumber]
          setError404Calls := [true] }
      else
        { noEffects with
          fetchCalls := [requestUrl phoneNumber]
          dispatches := [Action.SET_API_KEY (some body)]
          openChangeCalls := [false]
          authCompleteCalls := 1 }

/-- Schema `AuthFormSchema` (lines 30-32): `z.string().min(1)` on `phoneNumber`,
with message `"Phone number is required"`. Returns the field message when
validation fails, `none` when it passes. -/
def validatePhoneNumber (s : String) : Option String :=
  if s.length < 1 then some "Phone number is required" else none

/-- Result of `form.handleSubmit(onSubmit)`: the zod resolver runs first;
only when it reports no error is `onSubmit` invoked. -/
structure FormSubmitResult where
  validationError : Option String
  effects : SubmitEffects
  deriving DecidableEq, Repr

/-- The wrapper `form.handleSubmit(onSubmit)` (line 147) with the zod resolver
(lines 94-99): validate `phoneNumber` against `AuthFormSchema`; if it
fails, surface the field message and never call `onSubmit`; otherwise run
`onSubmit`. -/
def handleSubmit (phoneNumber : String) (outcome : FetchOutcome) : FormSubmitResult :=
  match validatePhoneNumber phoneNumber with
  | some msg => { validationError := some msg, effects := noEffects }
  | none => { validationError := none, effects := onSubmit phoneNumber outcome }

/-- The dialog's local `useState` flags (lines 82-83). -/
structure DialogLocal where
  error404 : Bool
  isBlinking : Bool
  deriving DecidableEq, Repr

/-- Initial local state: `useState(false)` for both flags (lines 82-83);
this is also what the flags return to when the dialog component is reset
(remounted). -/
def initialDialogLocal : DialogLocal :=
  { error404 := false, isBlinking := false }

/-- Apply a run of `setError404(b)` calls to the local state. -/
def applySetError404 (s : DialogLocal) (calls : List Bool) : DialogLocal :=
  calls.foldl (fun st b => { st with error404 := b }) s

/-- The `useEffect` on `[error404]` (lines 85-91): when `error404` is true
it calls `setIsBlinking(true)` and arms a 1000 ms timer; otherwise it does
nothing. -/
def error404Effect (s : DialogLocal) : DialogLocal :=
  if s.error404 then { s with isBlinking := true } else s

/-- The 1000 ms timer armed by the effect firing: `setIsBlinking(false)`
(line 88). -/
def blinkTimerFire (s : DialogLocal) : DialogLocal :=
  { s with isBlinking := false }

/-- The local-state update a submission run performs: its `setError404`
calls applied to the flags (the success and throw paths make none). -/
def submitLocalUpdate (phoneNumber : String) (outcome : FetchOutcome)
    (s : DialogLocal) : DialogLocal :=
  applySetError404 s (onSubmit phoneNumber outcome).setError404Calls

/-- Resetting the dialog: local state returns to its initial value. -/
def resetDialog (_ : DialogLocal) : DialogLocal :=
  initialDialogLocal

/-- The `useEffect` on `[pgState.openaiAPIKey, form]` (lines 102-104): the
phone-number field is set to `pgState.openaiAPIKey || ""`. -/
def prefillPhoneNumber (key : Option String) : String :=
  match key with
  | none => ""
  | some s => if s = "" then "" else s

/-- Events the dialog can see without a submission: the open flag toggling
through `onOpenChange` / the `open` prop, and edits to the phone field. -/
inductive DialogEvent where
  | setOpen (b : Bool)
  | editField (v : String)
  deriving DecidableEq, Repr

/-- The dialog-plus-shared-state view for the no-submission claim. -/
structure AppState where
  pgState : PgState
  showAuthDialog : Bool
  fieldValue : String
  deriving DecidableEq, Repr

/-- One non-submission event: returns the next state and the list of
actions dispatched to shared state while handling it (always empty: only
`onSubmit` and `onLogout` dispatch, and neither is an open/close or
field-edit handler). -/
def stepDialogEvent (s : AppState) : DialogEvent → AppState × List Action
  | DialogEvent.setOpen b => ({ s with showAuthDialog := b }, [])
  | DialogEvent.editField v => ({ s with fieldValue := v }, [])

/-- Run a sequence of non-submission events, accumulating dispatches. -/
def runDialogEvents (s : AppState) : List DialogEvent → AppState × List Action
  | [] => (s, [])
  | e :: es =>
      let (s1, d1) := stepDialogEvent s e
      let (s2, d2) := runDialogEvents s1 es
      (s2, d1 ++ d2)

end Auth

namespace Auth

/-- C1: for every non-empty phone number whose fetch resolves with any
status other than 404, `onSubmit` dispatches the response body (read as
text) as the API key, calls `onOpenChange(false)`, and calls
`onAuthComplete` exactly once; applying the dispatch stores the body
verbatim as the shared API key. -/
theorem submit_non404_stores_body_closes_and_completes
    (phone : String) (hphone : phone ≠ "") (status : Nat) (body : String)
    (hstatus : status ≠ 404) :
    (handleSubmit phone (FetchOutcome.response status body)).validationError
        = none ∧
    (handleSubmit phone (FetchOutcome.response status body)).effects.dispatches
        = [Action.SET_API_KEY (some body)] ∧
    (handleSubmit phone
        (FetchOutcome.response status body)).effects.openChangeCalls
        = [false] ∧
    (handleSubmit phone
        (FetchOutcome.response status body)).effects.authCompleteCalls = 1 ∧
    ∀ pg : PgState,
      (applyDispatches pg (handleSubmit phone
          (FetchOutcome.response status body)).effects.dispatches).openaiAPIKey
        = some body := by
  have hlen : ¬ phone.length < 1 := by
    rw [Nat.lt_one_iff]
    intro h
    apply hphone
    cases phone with
    | mk data =>
        cases data with
        | nil => rfl
        | cons c cs => simp [String.length] at h
  have hval : validatePhoneNumber phone = none := by
    unfold validatePhoneNumber
    exact if_neg hlen
  simp [handleSubmit, hval, onSubmit, hstatus, noEffects,
    applyDispatches, applyAction]

/-- Witness for C1: the spec's own example, phone `"09120674032"`, status
200, body `"abc123"`. -/
theorem submit_non404_stores_body_closes_and_completes_witness :
    (handleSubmit "09120674032"
        (FetchOutcome.response 200 "abc123")).validationError = none ∧
    (handleSubmit "09120674032"
        (FetchOutcome.response 200 "abc123")).effects.dispatches
        = [Action.SET_API_KEY (some "abc123")] ∧
    (handleSubmit "09120674032"
        (FetchOutcome.response 200 "abc123")).effects.openChangeCalls
        = [false] ∧
    (handleSubmit "09120674032"
        (FetchOutcome.response 200 "abc123")).effects.authCompleteCalls = 1 ∧
    ∀ pg : PgState,
      (applyDispatches pg (handleSubmit "09120674032"
          (FetchOutcome.response 200 "abc123")).effects.dispatches).openaiAPIKey
        = some "abc123" :=
  submit_non404_stores_body_closes_and_completes "09120674032"
    (by decide) 200 "abc123" (by decide)

/-- C2: a 404 response makes `onSubmit` call only `setError404(true)` —
no dispatch, no `onOpenChange`, no `onAuthComplete` — so the dialog stays
open; the effect hook then sets `isBlinking` true, and when the 1-second
timer fires `isBlinking` goes back to false while `error404` stays true. -/
theorem submit_404_sets_error_keeps_dialog_open_and_blinks
    (phone : String) (body : String) (s0 : DialogLocal) :
    let eff := onSubmit phone (FetchOutcome.response 404 body)
    eff.dispatches = [] ∧
    eff.openChangeCalls = [] ∧
    eff.authCompleteCalls = 0 ∧
    eff.setError404Calls = [true] ∧
    (let s1 := error404Effect (applySetError404 s0 eff.setError404Calls)
     s1.error404 = true ∧ s1.isBlinking = true ∧
     (blinkTimerFire s1).isBlinking = false ∧
     (blinkTimerFire s1).error404 = true) := by
  refine ⟨rfl, rfl, rfl, rfl, ?_, ?_, ?_, ?_⟩ <;>
    simp [onSubmit, applySetError404, error404Effect, blinkTimerFire]

/-- C3: when the fetch throws, `onSubmit` catches it, sets the manual
field error `"Failed to fetch API key. Please try again."` on
`phoneNumber`, dispatches nothing (shared state unchanged), and never
calls `onOpenChange` or `onAuthComplete` (dialog stays open). -/
theorem submit_throw_sets_field_error_no_dispatch (phone : String) :
    (onSubmit phone FetchOutcome.throws).fieldErrors =
      [("phoneNumber", "Failed to fetch API key. Please try again.")] ∧
    (onSubmit phone FetchOutcome.throws).dispatches = [] ∧
    (onSubmit phone FetchOutcome.throws).openChangeCalls = [] ∧
    (onSubmit phone FetchOutcome.throws).authCompleteCalls = 0 ∧
    ∀ pg : PgState,
      applyDispatches pg (onSubmit phone FetchOutcome.throws).dispatches = pg :=
  ⟨rfl, rfl, rfl, rfl, fun _ => rfl⟩

/-- C4: submitting the empty phone number fails validation with
`"Phone number is required"` and performs no effects at all — in
particular the remote endpoint is never called (`fetchCalls = []`),
whatever the network would have answered. -/
theorem empty_phone_blocks_submission (outcome : FetchOutcome) :
    let r := handleSubmit "" outcome
    r.validationError = some "Phone number is required" ∧
    r.effects = noEffects ∧
    r.effects.fetchCalls = [] :=
  ⟨rfl, rfl, rfl⟩

/-- C5: the error flag is never cleared automatically — the blink timer
and the error effect both leave `error404` true, and a further 404
submission keeps it true — and among {successful submission, dialog
reset} there is an operation returning it to false: resetting the dialog
restores the initial state, whose `error404` is false. -/
theorem error404_persists_until_reset
    (s : DialogLocal) (h : s.error404 = true) :
    (blinkTimerFire s).error404 = true ∧
    (error404Effect s).error404 = true ∧
    (∀ phone body,
      (submitLocalUpdate phone (FetchOutcome.response 404 body) s).error404
        = true) ∧
    (∃ op ∈ [fun st => applySetError404 st
               (onSubmit "p" (FetchOutcome.response 200 "k")).setError404Calls,
             resetDialog],
      (op s).error404 = false) := by
  refine ⟨h, ?_, ?_, ?_⟩
  · simp [error404Effect, h]
  · intro phone body
    simp [submitLocalUpdate, onSubmit, applySetError404]
  · exact ⟨resetDialog, by simp, by simp [resetDialog, initialDialogLocal]⟩

/-- Witness for C5: from `error404 = true, isBlinking = true`, the timer
and effect keep the flag, a repeat 404 keeps it, and dialog reset clears
it. -/
theorem error404_persists_until_reset_witness :
    let s : DialogLocal := { error404 := true, isBlinking := true }
    (blinkTimerFire s).error404 = true ∧
    (error404Effect s).error404 = true ∧
    (∀ phone body,
      (submitLocalUpdate phone (FetchOutcome.response 404 body) s).error404
        = true) ∧
    (∃ op ∈ [fun st => applySetError404 st
               (onSubmit "p" (FetchOutcome.response 200 "k")).setError404Calls,
             resetDialog],
      (op s).error404 = false) :=
  error404_persists_until_reset { error404 := true, isBlinking := true } rfl

/-- C6: the prefill effect copies the stored key verbatim into the
phone-number field for every string the key holds, and writes the empty
string when the key is null. -/
theorem prefill_copies_key_verbatim :
    (∀ k : String, prefillPhoneNumber (some k) = k) ∧
    prefillPhoneNumber none = "" := by
  refine ⟨fun k => ?_, rfl⟩
  by_cases hk : k = ""
  · simp [prefillPhoneNumber, hk]
  · simp [prefillPhoneNumber, hk]

/-- C7: the status indicator renders iff the shared API key is a
non-empty string; when it renders it shows exactly the first 4 and last 4
characters of the key around an ellipsis, and when it does not render it
shows nothing. -/
theorem indicator_masks_key_iff_nonempty (pg : PgState) :
    (rendersIndicator pg = true ↔
      ∃ k, pg.openaiAPIKey = some k ∧ k ≠ "") ∧
    (∀ k, pg.openaiAPIKey = some k → k ≠ "" →
      indicatorText pg = some (k.take 4 ++ "…" ++ k.takeRight 4)) ∧
    (rendersIndicator pg = false → indicatorText pg = none) := by
  refine ⟨?_, ?_, ?_⟩
  · cases hk : pg.openaiAPIKey with
    | none => simp [rendersIndicator, truthy, hk]
    | some k =>
        by_cases hke : k = "" <;>
          simp [rendersIndicator, truthy, hk, hke]
  · intro k hk hne
    simp [indicatorText, hk, hne, ellipsisMiddle]
  · intro h
    cases hk : pg.openaiAPIKey with
    | none => simp [indicatorText, hk]
    | some k =>
        by_cases hke : k = ""
        · simp [indicatorText, hk, hke]
        · exfalso
          rw [rendersIndicator] at h
          simp [truthy, hk, hke] at h

/-- Witness for C7: the key `"sk-proj-1234"` makes the indicator render
the first 4 characters, an ellipsis, and the last 4 characters. -/
theorem indicator_masks_key_iff_nonempty_witness :
    indicatorText { openaiAPIKey := some "sk-proj-1234", otherFields := [] }
      = some ("sk-p" ++ "…" ++ "1234") :=
  (indicator_masks_key_iff_nonempty
    { openaiAPIKey := some "sk-proj-1234", otherFields := [] }).2.1
    "sk-proj-1234" rfl (by decide)

/-- C8: the handler onLogout dispatches exactly one action, `SET_API_KEY` with
payload null, and calls `setShowAuthDialog(true)`; applying that single
dispatch clears the key and leaves every other shared field untouched. -/
theorem logout_clears_key_opens_dialog_frame (pg : PgState) :
    onLogout.dispatches = [Action.SET_API_KEY none] ∧
    onLogout.setShowAuthDialogCalls = [true] ∧
    (applyDispatches pg onLogout.dispatches).openaiAPIKey = none ∧
    (applyDispatches pg onLogout.dispatches).otherFields = pg.otherFields :=
  ⟨rfl, rfl, rfl, rfl⟩

/-- C9: any sequence of open/close and field-edit events without a
submission dispatches no action and leaves the shared playground state
exactly as it was. -/
theorem open_close_without_submit_preserves_state
    (s : AppState) (events : List DialogEvent) :
    (runDialogEvents s events).2 = [] ∧
    (runDialogEvents s events).1.pgState = s.pgState := by
  induction events generalizing s with
  | nil => exact ⟨rfl, rfl⟩
  | cons e es ih =>
      cases e with
      | setOpen b =>
          have h := ih { s with showAuthDialog := b }
          simpa [runDialogEvents, stepDialogEvent] using h
      | editField v =>
          have h := ih { s with fieldValue := v }
          simpa [runDialogEvents, stepDialogEvent] using h

/-- C10: a non-404 response with empty body dispatches the empty string as
the API key, still closes the dialog and fires the completion callback
once; the resulting shared state makes the indicator render nothing, just
as when no key is set. -/
theorem empty_body_key_indistinguishable_from_unauthenticated
    (phone : String) (status : Nat) (hstatus : status ≠ 404) :
    (onSubmit phone (FetchOutcome.response status "")).dispatches
        = [Action.SET_API_KEY (some "")] ∧
    (onSubmit phone (FetchOutcome.response status "")).openChangeCalls
        = [false] ∧
    (onSubmit phone (FetchOutcome.response status "")).authCompleteCalls = 1 ∧
    ∀ pg : PgState,
      rendersIndicator (applyDispatches pg
          (onSubmit phone (FetchOutcome.response status "")).dispatches)
        = false ∧
      indicatorText (applyDispatches pg
          (onSubmit phone (FetchOutcome.response status "")).dispatches)
        = none := by
  simp [onSubmit, hstatus, noEffects, applyDispatches, applyAction,
    rendersIndicator, truthy, indicatorText]

/-- Witness for C10: status 200, empty body. -/
theorem empty_body_key_indistinguishable_from_unauthenticated_witness :
    (onSubmit "09120674032" (FetchOutcome.response 200 "")).dispatches
        = [Action.SET_API_KEY (some "")] ∧
    (onSubmit "09120674032" (FetchOutcome.response 200 "")).openChangeCalls
        = [false] ∧
    (onSubmit "09120674032"
        (FetchOutcome.response 200 "")).authCompleteCalls = 1 ∧
    ∀ pg : PgState,
      rendersIndicator (applyDispatches pg (onSubmit "09120674032"
          (FetchOutcome.response 200 "")).dispatches) = false ∧
      indicatorText (applyDispatches pg (onSubmit "09120674032"
          (FetchOutcome.response 200 "")).dispatches) = none :=
  empty_body_key_indistinguishable_from_unauthenticated "09120674032" 200
    (by decide)

end Auth
